import Mathlib

/-!
Shallow embedding of the observability core of the `web-ui` repository:
`trace_models.py` (TraceSpan, ExecutionTrace), `tracer.py` (AgentTracer span
stack), `event_bus.py` (EventBus subscribe/unsubscribe/in-memory publish) and
`cost_calculator.py` (LLM pricing lookup).

Modelling conventions:
* Python `float` wall-clock times and USD amounts are embedded as `ℚ`
  (exact arithmetic); Python `int` token counts as `ℤ`.
* Python `None`-able fields are `Option`; Python truthiness of an optional
  number (`if span.tokens_input:`) is `getD 0 ≠ 0`, of a string `≠ ""`,
  of a list `≠ []`.
* `uuid4` span/trace identifiers are embedded as `Nat`, with uniqueness
  supplied as a hypothesis where a proof needs it.
* Python exceptions are values of `PyException`; a raising body is an
  `Except PyException` value, and re-raising is returning the same value.
* In-place mutation of a `TraceSpan` object that is aliased by both the
  tracer's `span_stack` and the trace's `spans` list is embedded by
  updating every span with the mutated object's `span_id` in both
  containers (`TracerState.updateSpanById`), which coincides with Python
  object mutation when ids are unique.
-/

/-- Python exception value: its type name and its `str(e)` message. -/
structure PyException where
  ty : String
  msg : String
deriving DecidableEq, Repr

/-- `SpanType` enum from `trace_models.py`. -/
inductive SpanType where
  | agent_run
  | llm_call
  | tool_call
  | browser_action
  | retrieval
deriving DecidableEq, Repr

/-- `TraceSpan` dataclass from `trace_models.py`.  Open `dict[str, Any]`
fields (`inputs`, `outputs`, `metadata`) are embedded as association lists
of strings: none of the verified behaviour inspects their values. -/
structure TraceSpan where
  span_id : Nat
  parent_id : Option Nat
  span_type : SpanType
  name : String
  start_time : ℚ
  end_time : Option ℚ := none
  duration_ms : Option ℚ := none
  inputs : List (String × String) := []
  outputs : List (String × String) := []
  metadata : List (String × String) := []
  tags : List String := []
  model_name : Option String := none
  tokens_input : Option ℤ := none
  tokens_output : Option ℤ := none
  cost_usd : Option ℚ := none
  status : String := "running"
  error : Option String := none
deriving DecidableEq, Repr

/-- `TraceSpan.complete`: stamp `end_time`, derive `duration_ms` when
`start_time` is truthy (Python `if self.start_time:`, i.e. nonzero), set
`status = "completed"`, and overwrite `outputs` when the argument is truthy
(non-`None` and non-empty). -/
def TraceSpan.complete (s : TraceSpan) (now : ℚ)
    (outputs : Option (List (String × String)) := none) : TraceSpan :=
  let s1 : TraceSpan := { s with end_time := some now }
  let s2 : TraceSpan :=
    if s1.start_time ≠ 0 then
      { s1 with duration_ms := some ((now - s1.start_time) * 1000) }
    else s1
  let s3 : TraceSpan := { s2 with status := "completed" }
  match outputs with
  | some o => if o ≠ [] then { s3 with outputs := o } else s3
  | none => s3

/-- `TraceSpan.error_out`: stamp `end_time`, derive `duration_ms` when
`start_time` is truthy, set `status = "error"` and `error = str(e)`. -/
def TraceSpan.error_out (s : TraceSpan) (now : ℚ) (e : PyException) : TraceSpan :=
  let s1 : TraceSpan := { s with end_time := some now }
  let s2 : TraceSpan :=
    if s1.start_time ≠ 0 then
      { s1 with duration_ms := some ((now - s1.start_time) * 1000) }
    else s1
  { s2 with status := "error", error := some e.msg }

/-- A dynamically typed Python value, as stored in
`ExecutionTrace.final_output : Any`.  Covers the shapes the claims discuss. -/
inductive PyVal where
  | pynone
  | pyint (n : ℤ)
  | pystr (s : String)
  | pybool (b : Bool)
deriving DecidableEq, Repr

/-- Python truthiness of a `PyVal`. -/
def PyVal.truthy : PyVal → Bool
  | .pynone => false
  | .pyint n => n ≠ 0
  | .pystr s => s ≠ ""
  | .pybool b => b

/-- Python `str()` of a `PyVal`. -/
def PyVal.str : PyVal → String
  | .pynone => "None"
  | .pyint n => toString n
  | .pystr s => s
  | .pybool b => if b then "True" else "False"

/-- `ExecutionTrace` dataclass from `trace_models.py`. -/
structure ExecutionTrace where
  trace_id : Nat
  session_id : String
  task : String
  start_time : ℚ
  end_time : Option ℚ := none
  spans : List TraceSpan := []
  total_tokens : ℤ := 0
  total_cost_usd : ℚ := 0
  llm_calls : Nat := 0
  actions_executed : Nat := 0
  success : Bool := false
  final_output : PyVal := .pynone
  error : Option String := none
deriving DecidableEq, Repr

/-- `ExecutionTrace.add_span`: append the span, then update the aggregated
counters from the span's fields as they are at append time.  The guards are
Python truthiness tests (`if span.tokens_input:` etc.), so `None` and `0`
are both skipped. -/
def ExecutionTrace.add_span (t : ExecutionTrace) (s : TraceSpan) : ExecutionTrace :=
  let t1 : ExecutionTrace := { t with spans := t.spans ++ [s] }
  let t2 : ExecutionTrace :=
    if s.tokens_input.getD 0 ≠ 0 then
      { t1 with total_tokens := t1.total_tokens + s.tokens_input.getD 0 }
    else t1
  let t3 : ExecutionTrace :=
    if s.tokens_output.getD 0 ≠ 0 then
      { t2 with total_tokens := t2.total_tokens + s.tokens_output.getD 0 }
    else t2
  let t4 : ExecutionTrace :=
    if s.cost_usd.getD 0 ≠ 0 then
      { t3 with total_cost_usd := t3.total_cost_usd + s.cost_usd.getD 0 }
    else t3
  let t5 : ExecutionTrace :=
    if s.span_type = SpanType.llm_call then
      { t4 with llm_calls := t4.llm_calls + 1 }
    else t4
  if s.span_type = SpanType.browser_action then
    { t5 with actions_executed := t5.actions_executed + 1 }
  else t5

/-- `ExecutionTrace.get_duration_ms`: uses `end_time` when truthy
(Python `if self.end_time:`), otherwise the elapsed time to `now`. -/
def ExecutionTrace.get_duration_ms (t : ExecutionTrace) (now : ℚ) : ℚ :=
  if t.end_time.getD 0 ≠ 0 then (t.end_time.getD 0 - t.start_time) * 1000
  else (now - t.start_time) * 1000

/-- The trace a fresh `AgentTracer.start_trace` constructs: explicit
identity fields, every other field left at its dataclass default. -/
def freshTrace (tid : Nat) (sid task : String) (t0 : ℚ) : ExecutionTrace :=
  { trace_id := tid, session_id := sid, task := task, start_time := t0 }

/-- Full recomputation of `total_tokens` over `spans`: sum of
`tokens_input + tokens_output` counting only fields that are set. -/
def recomputeTokens (spans : List TraceSpan) : ℤ :=
  (spans.map (fun s => s.tokens_input.getD 0 + s.tokens_output.getD 0)).sum

/-- Full recomputation of `total_cost_usd` over `spans`. -/
def recomputeCost (spans : List TraceSpan) : ℚ :=
  (spans.map (fun s => s.cost_usd.getD 0)).sum

/-- Full recomputation of `llm_calls` over `spans`. -/
def recomputeLlmCalls (spans : List TraceSpan) : Nat :=
  (spans.filter (fun s => s.span_type = SpanType.llm_call)).length

/-- Full recomputation of `actions_executed` over `spans`. -/
def recomputeActions (spans : List TraceSpan) : Nat :=
  (spans.filter (fun s => s.span_type = SpanType.browser_action)).length

/-- The aggregated counters of a trace agree with a full recomputation
over its `spans` list. -/
def aggAgrees (t : ExecutionTrace) : Prop :=
  t.total_tokens = recomputeTokens t.spans ∧
  t.total_cost_usd = recomputeCost t.spans ∧
  t.llm_calls = recomputeLlmCalls t.spans ∧
  t.actions_executed = recomputeActions t.spans

/-- Replace the element at index `i` of `l` by `f` of it (identity when `i`
is out of range).  Used to embed in-place mutation of a list element. -/
def listModify (l : List TraceSpan) (i : Nat) (f : TraceSpan → TraceSpan) : List TraceSpan :=
  match l, i with
  | [], _ => []
  | x :: xs, 0 => f x :: xs
  | x :: xs, n + 1 => x :: listModify xs n f

/-- Mutation of the `i`-th appended span object after it was appended
(`tracer.span` yields the very object stored in `trace.spans`, so a body
that assigns e.g. `span.tokens_input = 100` mutates the stored span in
place).  Only the span changes; `add_span`'s counters are not revisited. -/
def ExecutionTrace.mutateSpan (t : ExecutionTrace) (i : Nat)
    (f : TraceSpan → TraceSpan) : ExecutionTrace :=
  { t with spans := listModify t.spans i f }

/-- Mutable state of an `AgentTracer` from `tracer.py`: the session id, the
optional current trace, and the stack of open spans (top of stack = last
element, matching Python `append` / `[-1]` / `pop`). -/
structure TracerState where
  session_id : String
  current_trace : Option ExecutionTrace := none
  span_stack : List TraceSpan := []
deriving DecidableEq, Repr

/-- `AgentTracer.get_current_span`: the top of `span_stack`, or `none`. -/
def TracerState.get_current_span (st : TracerState) : Option TraceSpan :=
  st.span_stack.getLast?

/-- Apply `f` to every span whose `span_id` is `sid`, in both the span
stack and the current trace's span list.  This embeds Python in-place
mutation of the span object, which is aliased by both containers; when
ids are unique it touches exactly that one object. -/
def TracerState.updateSpanById (st : TracerState) (sid : Nat)
    (f : TraceSpan → TraceSpan) : TracerState :=
  { st with
    span_stack := st.span_stack.map (fun s => if s.span_id = sid then f s else s),
    current_trace := st.current_trace.map (fun tr =>
      { tr with spans := tr.spans.map (fun s => if s.span_id = sid then f s else s) }) }

/-- Entry half of `AgentTracer.span`: create the span with `parent_id` the
id of the current top of `span_stack` (or `none`), push it, and — when a
trace is active — `add_span` it to the trace. -/
def TracerState.spanEnter (st : TracerState) (sid : Nat) (name : String)
    (ty : SpanType) (now : ℚ) (inputs : List (String × String) := [])
    (metadata : List (String × String) := []) : TracerState :=
  let parent := st.span_stack.getLast?.map (fun s => s.span_id)
  let s : TraceSpan :=
    { span_id := sid, parent_id := parent, span_type := ty, name := name,
      start_time := now, inputs := inputs, metadata := metadata }
  let st1 : TracerState := { st with span_stack := st.span_stack ++ [s] }
  match st1.current_trace with
  | some tr => { st1 with current_trace := some (tr.add_span s) }
  | none => st1

/-- The `finally` block of `AgentTracer.span`: pop the span from
`span_stack` only when the stack is nonempty and its top entry has the
closing span's id; otherwise leave the stack untouched (defensive no-op). -/
def TracerState.popIfTop (st : TracerState) (sid : Nat) : TracerState :=
  if st.span_stack.getLast?.map (fun s => s.span_id) = some sid then
    { st with span_stack := st.span_stack.dropLast }
  else st

/-- Normal-exit half of `AgentTracer.span`: `span.complete()` on the span
object (visible through both aliases), then the guarded pop. -/
def TracerState.spanExitComplete (st : TracerState) (sid : Nat) (now : ℚ) : TracerState :=
  (st.updateSpanById sid (fun s => s.complete now none)).popIfTop sid

/-- Error-exit half of `AgentTracer.span`: `span.error_out(e)` on the span
object, then the guarded pop; the original exception is re-raised by
`runSpan`. -/
def TracerState.spanExitError (st : TracerState) (sid : Nat) (now : ℚ)
    (e : PyException) : TracerState :=
  (st.updateSpanById sid (fun s => s.error_out now e)).popIfTop sid

/-- One whole `async with tracer.span(...)` scope around a body that does
not itself touch the tracer: enter, then, depending on whether the body
returned normally or raised, the matching exit path; the body's outcome
(including the identical raised exception) is passed through to the
caller. -/
def TracerState.runSpan (st : TracerState) (sid : Nat) (name : String)
    (ty : SpanType) (tEnter tExit : ℚ) (body : Except PyException Unit) :
    TracerState × Except PyException Unit :=
  let st1 := st.spanEnter sid name ty tEnter
  match body with
  | .ok _ => (st1.spanExitComplete sid tExit, .ok ())
  | .error e => (st1.spanExitError sid tExit e, .error e)

/-- `EventType` enum from `event_bus.py`. -/
inductive EventType where
  | agent_start | agent_step | agent_complete | agent_error | agent_paused | agent_resumed
  | llm_request | llm_token | llm_response | llm_error
  | action_start | action_complete | action_error | browser_navigate | browser_screenshot
  | trace_span_start | trace_span_end | trace_complete
  | ui_connected | ui_disconnected | ui_command
  | workflow_node_start | workflow_node_complete | workflow_edge_traversed
deriving DecidableEq, Repr

/-- `Event` dataclass from `event_bus.py`; the open `data` mapping is an
association list of strings (its values are never inspected here). -/
structure Event where
  event_type : EventType
  session_id : String
  timestamp : ℚ
  data : List (String × String) := []
  correlation_id : Option String := none
deriving DecidableEq, Repr

/-- The `_subscribers` table: a finite mapping from event type to a set of
handlers.  Handlers are embedded as `Nat` identities (Python compares
handlers by object identity inside the `set`); the dict is an association
list in insertion order and each per-type `set` is a duplicate-free list. -/
abbrev Subscribers := List (EventType × List Nat)

/-- Python `set.add`: insert the handler only if it is not already present. -/
def setAdd (l : List Nat) (h : Nat) : List Nat :=
  if h ∈ l then l else l ++ [h]

/-- `EventBus.subscribe`: create the per-type entry if the type is absent,
then `set.add` the handler. -/
def subscribe (tbl : Subscribers) (t : EventType) (h : Nat) : Subscribers :=
  if (tbl.find? (fun p => p.1 = t)).isSome then
    tbl.map (fun p => if p.1 = t then (p.1, setAdd p.2 h) else p)
  else
    tbl ++ [(t, setAdd [] h)]

/-- `EventBus.unsubscribe`: `set.discard` the handler when the type has an
entry; absent type or absent handler is a no-op. -/
def unsubscribe (tbl : Subscribers) (t : EventType) (h : Nat) : Subscribers :=
  tbl.map (fun p => if p.1 = t then (p.1, p.2.filter (fun x => x ≠ h)) else p)

/-- The set of handlers currently subscribed for type `t`
(`self._subscribers[event.event_type]`, empty when the key is absent). -/
def subsOf (tbl : Subscribers) (t : EventType) : List Nat :=
  ((tbl.find? (fun p => p.1 = t)).map (fun p => p.2)).getD []

/-- A subscriber-table operation a handler may perform while it runs. -/
inductive BusOp where
  | sub (t : EventType) (h : Nat)
  | unsub (t : EventType) (h : Nat)
deriving DecidableEq, Repr

/-- Apply a handler's table operations in order. -/
def applyOps (tbl : Subscribers) (ops : List BusOp) : Subscribers :=
  ops.foldl (fun acc op =>
    match op with
    | .sub t h => subscribe acc t h
    | .unsub t h => unsubscribe acc t h) tbl

/-- Behaviour environment for handlers: what a given handler does with a
given event — the subscribe/unsubscribe operations it performs, and
optionally the exception it raises afterwards (`none` = returns normally). -/
abbrev HandlerEnv := Nat → Event → List BusOp × Option String

/-- `EventBus._safe_handle`: run the handler; its table operations take
effect, and an exception it raises is caught and logged, never propagated
(the error component is discarded here, exactly the `except` branch). -/
def safeHandle (env : HandlerEnv) (tbl : Subscribers) (h : Nat) (e : Event) :
    Subscribers :=
  applyOps tbl (env h e).1

/-- `EventBus._publish_memory`: snapshot the subscriber set for the event's
type into a list (`handlers = list(...)`), then run every handler through
`_safe_handle`.  The result records the final table and, in order, the
handlers that were invoked; the `Except` layer is the exception channel to
the caller of `publish`, which never carries an error because every handler
runs inside `_safe_handle` (and `gather` is called with
`return_exceptions=True`).  `asyncio.gather`'s concurrent interleaving of
the handlers' own table operations is embedded as one sequential order;
the fan-out list is computed before any of them runs either way. -/
def publishMemory (env : HandlerEnv) (tbl : Subscribers) (e : Event) :
    Except String (Subscribers × List Nat) :=
  match tbl.find? (fun p => p.1 = e.event_type) with
  | none => .ok (tbl, [])
  | some entry =>
    .ok (entry.2.foldl (fun acc h => (safeHandle env acc.1 h e, acc.2 ++ [h])) (tbl, []))

/-- The handlers a `publish` call actually invoked (empty on the error
channel, which never occurs). -/
def invokedList (r : Except String (Subscribers × List Nat)) : List Nat :=
  match r with
  | .ok (_, l) => l
  | .error _ => []

/-- ASCII lowercasing of one character (Python `str.lower` on the model
names that occur here, which are ASCII). -/
def lowerChar (c : Char) : Char :=
  if 'A' ≤ c ∧ c ≤ 'Z' then Char.ofNat (c.toNat + 32) else c

/-- Python `str.strip` whitespace class (space, tab, newline, CR, VT, FF). -/
def isWS (c : Char) : Bool :=
  c = ' ' || c = '\t' || c = '\n' || c = '\r' || c = '\x0b' || c = '\x0c'

/-- Strip whitespace from both ends of a character list (`str.strip`). -/
def trimChars (l : List Char) : List Char :=
  ((l.dropWhile isWS).reverse.dropWhile isWS).reverse

/-- `needle` occurs at the start of `hay`. -/
def startsWithChars : List Char → List Char → Bool
  | [], _ => true
  | _ :: _, [] => false
  | a :: as, b :: bs => a = b && startsWithChars as bs

/-- Python substring containment `needle in hay` on character lists. -/
def containsChars (needle hay : List Char) : Bool :=
  match hay with
  | [] => needle.isEmpty
  | _ :: rest => startsWithChars needle hay || containsChars needle rest

/-- `model.lower().strip()` from `calculate_llm_cost`. -/
def normalizeModel (model : String) : List Char :=
  trimChars (model.data.map lowerChar)

/-- `LLM_PRICING` table from `cost_calculator.py`, in source (= dict
insertion) order: model key, USD per 1M input tokens, USD per 1M output
tokens. -/
def LLM_PRICING : List (String × ℚ × ℚ) :=
  [("gpt-4o", 2.50, 10.00),
   ("gpt-4o-mini", 0.15, 0.60),
   ("gpt-4-turbo", 10.00, 30.00),
   ("gpt-4", 30.00, 60.00),
   ("gpt-3.5-turbo", 0.50, 1.50),
   ("claude-3.7-sonnet", 3.00, 15.00),
   ("claude-3-5-sonnet", 3.00, 15.00),
   ("claude-3-opus", 15.00, 75.00),
   ("claude-3-haiku", 0.25, 1.25),
   ("claude-3-sonnet", 3.00, 15.00),
   ("gemini-pro", 0.50, 1.50),
   ("gemini-1.5-pro", 1.25, 5.00),
   ("gemini-1.5-flash", 0.075, 0.30),
   ("gemini-2.0-flash", 0.10, 0.40),
   ("deepseek-v3", 0.14, 0.28),
   ("deepseek-chat", 0.14, 0.28),
   ("mistral-large", 2.00, 6.00),
   ("mistral-medium", 2.70, 8.10),
   ("mistral-small", 0.20, 0.60),
   ("ollama", 0.00, 0.00),
   ("llama", 0.00, 0.00)]

/-- `calculate_llm_cost` from `cost_calculator.py`: early return `0.0` when
the model name is falsy or either token count is `0`; otherwise normalize
the name, look up the pricing by exact key match, then by the first fuzzy
match (`known_model in model_key or model_key in known_model` in dict
order), returning `0.0` when nothing matches; finally
`tokens / 1_000_000 * price` summed over input and output. -/
def calculate_llm_cost (model : String) (input_tokens output_tokens : ℤ) : ℚ :=
  if model = "" ∨ input_tokens = 0 ∨ output_tokens = 0 then 0
  else
    let model_key := normalizeModel model
    let exact := LLM_PRICING.find? (fun p => p.1.data = model_key)
    let fuzzy := LLM_PRICING.find? (fun p =>
      containsChars p.1.data model_key || containsChars model_key p.1.data)
    match exact with
    | some p => (input_tokens : ℚ) / 1000000 * p.2.1 + (output_tokens : ℚ) / 1000000 * p.2.2
    | none =>
      match fuzzy with
      | some p => (input_tokens : ℚ) / 1000000 * p.2.1 + (output_tokens : ℚ) / 1000000 * p.2.2
      | none => 0

/-- The shape of the dictionary built by `ExecutionTrace.to_dict`.
`span.to_dict()` is `dataclasses.asdict`, a structural copy, so the spans
entry keeps the `TraceSpan` shape. -/
structure TraceDict where
  trace_id : Nat
  session_id : String
  task : String
  start_time : ℚ
  end_time : Option ℚ
  duration_ms : ℚ
  spans : List TraceSpan
  total_tokens : ℤ
  total_cost_usd : ℚ
  llm_calls : Nat
  actions_executed : Nat
  success : Bool
  final_output : Option String
  error : Option String
deriving DecidableEq, Repr

/-- `ExecutionTrace.to_dict`: field-by-field serialization; `duration_ms`
calls `get_duration_ms` (which may consult the clock `now`), and
`final_output` is `str(self.final_output) if self.final_output else None`
— a truthiness test, not an `is not None` test. -/
def ExecutionTrace.to_dict (t : ExecutionTrace) (now : ℚ) : TraceDict :=
  { trace_id := t.trace_id,
    session_id := t.session_id,
    task := t.task,
    start_time := t.start_time,
    end_time := t.end_time,
    duration_ms := t.get_duration_ms now,
    spans := t.spans,
    total_tokens := t.total_tokens,
    total_cost_usd := t.total_cost_usd,
    llm_calls := t.llm_calls,
    actions_executed := t.actions_executed,
    success := t.success,
    final_output := if t.final_output.truthy then some t.final_output.str else none,
    error := t.error }
/-- The span `AgentTracer.span` constructs on entry: fresh id, parent the
current top of stack, the given type/name, clock reading as `start_time`,
everything else defaulted. -/
def mkSpan (st : TracerState) (sid : Nat) (name : String) (ty : SpanType)
    (now : ℚ) : TraceSpan :=
  { span_id := sid,
    parent_id := st.span_stack.getLast?.map (fun s => s.span_id),
    span_type := ty, name := name, start_time := now }

/-- A span appended while its token fields are still unset (as
`AgentTracer.span` does: the span is added to the trace on scope entry,
before the body runs). -/
def c1Span : TraceSpan :=
  { span_id := 1, parent_id := none, span_type := .llm_call,
    name := "llm", start_time := 1 }

/-- The trace after `add_span(c1Span)` followed by the body's in-place
update `span.tokens_input = 100` on the appended span object. -/
def c1Mutated : ExecutionTrace :=
  ((freshTrace 0 "sess" "task" 1).add_span c1Span).mutateSpan 0
    (fun s => { s with tokens_input := some 100 })

/-- A span created through the `TraceSpan` constructor with its default
status/timing fields and a zero (falsy) `start_time`. -/
def c5ZeroStartSpan : TraceSpan :=
  { span_id := 0, parent_id := none, span_type := .tool_call,
    name := "work", start_time := 0 }

/-- The three-way lifecycle condition of the spec:
`status == "running"`, `end_time is None` and `duration_ms is None` are
pairwise equivalent on a span. -/
def lifecycleEquiv (s : TraceSpan) : Prop :=
  ((s.status = "running") ↔ s.end_time = none) ∧
  ((s.end_time = none) ↔ s.duration_ms = none)

/-- A concrete tracer with no active trace and an empty span stack. -/
def c3St : TracerState :=
  { session_id := "s", current_trace := none, span_stack := [] }

/-- A concrete open span with id 5. -/
def c3TopSpan : TraceSpan :=
  { span_id := 5, parent_id := none, span_type := SpanType.tool_call,
    name := "x", start_time := 1 }

/-- A concrete tracer whose stack top has span id 5. -/
def c3Guard : TracerState :=
  { session_id := "s", current_trace := none, span_stack := [c3TopSpan] }

/-- A concrete subscriber table: handlers 1 and 2 both subscribed to
`agent.step`. -/
def c4Bus : Subscribers :=
  subscribe (subscribe [] EventType.agent_step 1) EventType.agent_step 2

/-- A concrete handler environment: handler 1 raises, every other handler
returns normally; none touches the table. -/
def c4Env : HandlerEnv :=
  fun h _ => ([], if h = 1 then some "boom" else none)

/-- A concrete `agent.step` event. -/
def c4Event : Event :=
  { event_type := EventType.agent_step, session_id := "s", timestamp := 1 }

theorem aggAgrees_add_span (t : ExecutionTrace) (s : TraceSpan)
    (h : aggAgrees t) : aggAgrees (t.add_span s) := by
  obtain ⟨h1, h2, h3, h4⟩ := h
  unfold ExecutionTrace.add_span
  constructor
  · by_cases hi : s.tokens_input.getD 0 ≠ 0 <;>
      by_cases ho : s.tokens_output.getD 0 ≠ 0 <;>
      by_cases hc : s.cost_usd.getD 0 ≠ 0 <;>
      by_cases hl : s.span_type = SpanType.llm_call <;>
      by_cases hb : s.span_type = SpanType.browser_action <;>
      simp only [hi, ho, hc, hl, hb, if_pos, if_neg, ite_true, ite_false, not_not,
        not_true, not_false_iff] <;>
      simp_all [recomputeTokens] <;> omega
  constructor
  · by_cases hi : s.tokens_input.getD 0 ≠ 0 <;>
      by_cases ho : s.tokens_output.getD 0 ≠ 0 <;>
      by_cases hc : s.cost_usd.getD 0 ≠ 0 <;>
      by_cases hl : s.span_type = SpanType.llm_call <;>
      by_cases hb : s.span_type = SpanType.browser_action <;>
      simp_all [recomputeCost]
  constructor
  · by_cases hi : s.tokens_input.getD 0 ≠ 0 <;>
      by_cases ho : s.tokens_output.getD 0 ≠ 0 <;>
      by_cases hc : s.cost_usd.getD 0 ≠ 0 <;>
      by_cases hl : s.span_type = SpanType.llm_call <;>
      by_cases hb : s.span_type = SpanType.browser_action <;>
      simp_all [recomputeLlmCalls]
  · by_cases hi : s.tokens_input.getD 0 ≠ 0 <;>
      by_cases ho : s.tokens_output.getD 0 ≠ 0 <;>
      by_cases hc : s.cost_usd.getD 0 ≠ 0 <;>
      by_cases hl : s.span_type = SpanType.llm_call <;>
      by_cases hb : s.span_type = SpanType.browser_action <;>
      simp_all [recomputeActions]

theorem aggAgrees_foldl (ss : List TraceSpan) (t : ExecutionTrace)
    (h : aggAgrees t) : aggAgrees (ss.foldl ExecutionTrace.add_span t) := by
  induction ss generalizing t with
  | nil => exact h
  | cons s rest ih => exact ih _ (aggAgrees_add_span t s h)

/-- C1 (amended): after any sequence of `add_span` calls on a freshly
constructed trace, each aggregated counter equals the corresponding full
recomputation over `spans` — provided no span's token/cost/type fields are
mutated after it was appended. -/
theorem c1_counters_match_recomputation (tid : Nat) (sid task : String)
    (t0 : ℚ) (ss : List TraceSpan) :
    aggAgrees (ss.foldl ExecutionTrace.add_span (freshTrace tid sid task t0)) := by
  refine aggAgrees_foldl ss _ ⟨rfl, rfl, rfl, rfl⟩

/-- C1 (counterexample): a span's `tokens_input` set to 100 after it was
appended makes `total_tokens` (still 0) drift from the full recomputation
over `spans` (now 100), so the counters do not survive post-append
mutation of a span's token fields. -/
theorem c1_counterexample :
    c1Mutated.total_tokens = 0 ∧
    recomputeTokens c1Mutated.spans = 100 ∧
    ¬ aggAgrees c1Mutated := by
  refine ⟨rfl, by decide, ?_⟩
  intro h
  exact absurd (h.1) (by decide)

theorem error_out_span_id (s : TraceSpan) (now : ℚ) (e : PyException) :
    (s.error_out now e).span_id = s.span_id := by
  unfold TraceSpan.error_out
  dsimp only
  split <;> rfl

theorem complete_span_id (s : TraceSpan) (now : ℚ)
    (o : Option (List (String × String))) :
    (s.complete now o).span_id = s.span_id := by
  unfold TraceSpan.complete
  cases o <;> dsimp only <;> (try split) <;> (try split) <;> rfl

theorem map_updIf_eq_self (l : List TraceSpan) (sid : Nat)
    (f : TraceSpan → TraceSpan) (h : sid ∉ l.map (fun s => s.span_id)) :
    l.map (fun s => if s.span_id = sid then f s else s) = l := by
  induction l with
  | nil => rfl
  | cons x xs ih =>
    simp only [List.map_cons, List.mem_cons, not_or] at h
    simp only [List.map_cons]
    rw [if_neg (fun hx => h.1 hx.symm), ih h.2]

theorem add_span_spans (t : ExecutionTrace) (s : TraceSpan) :
    (t.add_span s).spans = t.spans ++ [s] := by
  unfold ExecutionTrace.add_span
  dsimp only
  repeat' split
  all_goals rfl

theorem popIfTop_current_trace (st : TracerState) (sid : Nat) :
    (st.popIfTop sid).current_trace = st.current_trace := by
  unfold TracerState.popIfTop
  split <;> rfl

theorem spanEnter_eq (st : TracerState) (tr : ExecutionTrace) (sid : Nat)
    (name : String) (ty : SpanType) (now : ℚ)
    (htr : st.current_trace = some tr) :
    st.spanEnter sid name ty now =
      { st with
        span_stack := st.span_stack ++ [mkSpan st sid name ty now],
        current_trace := some (tr.add_span (mkSpan st sid name ty now)) } := by
  unfold TracerState.spanEnter mkSpan
  dsimp only
  rw [htr]

theorem spanEnter_span_stack (st : TracerState) (sid : Nat) (name : String)
    (ty : SpanType) (now : ℚ) :
    (st.spanEnter sid name ty now).span_stack =
      st.span_stack ++ [mkSpan st sid name ty now] := by
  unfold TracerState.spanEnter mkSpan
  dsimp only
  split <;> rfl

theorem errored_mkSpan_fields (st : TracerState) (sid : Nat) (name : String)
    (ty : SpanType) (t1 t2 : ℚ) (e : PyException) (ht1 : t1 ≠ 0) :
    ((mkSpan st sid name ty t1).error_out t2 e).span_id = sid ∧
    ((mkSpan st sid name ty t1).error_out t2 e).status = "error" ∧
    ((mkSpan st sid name ty t1).error_out t2 e).error = some e.msg ∧
    ((mkSpan st sid name ty t1).error_out t2 e).end_time = some t2 ∧
    ((mkSpan st sid name ty t1).error_out t2 e).duration_ms =
      some ((t2 - t1) * 1000) := by
  unfold TraceSpan.error_out mkSpan
  dsimp only
  rw [if_pos ht1]
  exact ⟨rfl, rfl, rfl, rfl, rfl⟩

/-- C2: a span scope whose body raises `e` re-raises the identical
exception to the caller; the span stays attached to the current trace with
`status = "error"`, `error = str(e)`, stamped `end_time` and `duration_ms`;
and, being still the top stack entry, it is popped, restoring `span_stack`.
Hypotheses: a trace is active, the generated span id is fresh (uuid4), and
the wall-clock entry time is nonzero (truthy, as `time.time()` is). -/
theorem c2_span_error_reraises (st : TracerState) (tr : ExecutionTrace)
    (sid : Nat) (name : String) (ty : SpanType) (t1 t2 : ℚ) (e : PyException)
    (htr : st.current_trace = some tr)
    (hfresh : sid ∉ st.span_stack.map (fun s => s.span_id))
    (ht1 : t1 ≠ 0) :
    (st.runSpan sid name ty t1 t2 (.error e)).2 = .error e ∧
    (∃ tr', (st.runSpan sid name ty t1 t2 (.error e)).1.current_trace = some tr' ∧
      ∃ s, s ∈ tr'.spans ∧ s.span_id = sid ∧ s.status = "error" ∧
        s.error = some e.msg ∧ s.end_time = some t2 ∧
        s.duration_ms = some ((t2 - t1) * 1000)) ∧
    (st.runSpan sid name ty t1 t2 (.error e)).1.span_stack = st.span_stack := by
  have h1 : (st.runSpan sid name ty t1 t2 (.error e)).1 =
      ((st.spanEnter sid name ty t1).updateSpanById sid
        (fun s => s.error_out t2 e)).popIfTop sid := rfl
  have hup : ((st.spanEnter sid name ty t1).updateSpanById sid
      (fun s => s.error_out t2 e)).span_stack =
      st.span_stack ++ [(mkSpan st sid name ty t1).error_out t2 e] := by
    rw [spanEnter_eq st tr sid name ty t1 htr]
    dsimp only [TracerState.updateSpanById]
    rw [List.map_append, map_updIf_eq_self _ _ _ hfresh]
    simp only [List.map_cons, List.map_nil]
    rw [if_pos (show (mkSpan st sid name ty t1).span_id = sid from rfl)]
  obtain ⟨hid, hstat, herr, hend, hdur⟩ :=
    errored_mkSpan_fields st sid name ty t1 t2 e ht1
  refine ⟨rfl, ?_, ?_⟩
  · rw [h1, popIfTop_current_trace, spanEnter_eq st tr sid name ty t1 htr]
    dsimp only [TracerState.updateSpanById, Option.map]
    refine ⟨_, rfl, ?_⟩
    refine ⟨(mkSpan st sid name ty t1).error_out t2 e, ?_, hid, hstat, herr, hend, hdur⟩
    rw [add_span_spans, List.map_append]
    refine List.mem_append_right _ ?_
    simp only [List.map_cons, List.map_nil]
    rw [if_pos (show (mkSpan st sid name ty t1).span_id = sid from rfl)]
    exact List.mem_singleton.mpr rfl
  · rw [h1]
    unfold TracerState.popIfTop
    rw [if_pos (show (((st.spanEnter sid name ty t1).updateSpanById sid
        (fun s => s.error_out t2 e)).span_stack.getLast?.map
          (fun s => s.span_id)) = some sid by
      rw [hup, List.getLast?_concat]
      dsimp only [Option.map]
      rw [hid])]
    dsimp only
    rw [hup, List.dropLast_concat]

/-- C2 witness: the error exit path evaluated on a concrete tracer with an
active trace, an empty stack, and a body raising `ValueError("x")`. -/
theorem c2_span_error_reraises_witness :
    (TracerState.runSpan
        { session_id := "s", current_trace := some (freshTrace 0 "s" "task" 1),
          span_stack := [] } 7 "work" SpanType.tool_call 1 2
        (.error { ty := "ValueError", msg := "x" })).2 =
      .error { ty := "ValueError", msg := "x" } ∧
    (∃ tr', (TracerState.runSpan
        { session_id := "s", current_trace := some (freshTrace 0 "s" "task" 1),
          span_stack := [] } 7 "work" SpanType.tool_call 1 2
        (.error { ty := "ValueError", msg := "x" })).1.current_trace = some tr' ∧
      ∃ s, s ∈ tr'.spans ∧ s.span_id = 7 ∧ s.status = "error" ∧
        s.error = some "x" ∧ s.end_time = some 2 ∧
        s.duration_ms = some (((2 : ℚ) - 1) * 1000)) ∧
    (TracerState.runSpan
        { session_id := "s", current_trace := some (freshTrace 0 "s" "task" 1),
          span_stack := [] } 7 "work" SpanType.tool_call 1 2
        (.error { ty := "ValueError", msg := "x" })).1.span_stack = [] :=
  c2_span_error_reraises _ _ 7 "work" SpanType.tool_call 1 2
    { ty := "ValueError", msg := "x" } rfl (by decide) (by decide)

theorem map_span_id_updIf (l : List TraceSpan) (sid : Nat) (t : ℚ) :
    (l.map (fun s => if s.span_id = sid then s.complete t none else s)).map
        (fun s => s.span_id) =
      l.map (fun s => s.span_id) := by
  induction l with
  | nil => rfl
  | cons x xs ih =>
    simp only [List.map_cons]
    rw [ih]
    congr 1
    split
    · exact complete_span_id _ _ _
    · rfl

theorem spanExit_noop_ids (st' : TracerState) (sid : Nat) (t : ℚ)
    (hne : st'.span_stack.getLast?.map (fun s => s.span_id) ≠ some sid) :
    (st'.spanExitComplete sid t).span_stack.map (fun s => s.span_id) =
      st'.span_stack.map (fun s => s.span_id) := by
  unfold TracerState.spanExitComplete TracerState.popIfTop
  have hcond : ¬ (((st'.updateSpanById sid
      (fun s => s.complete t none)).span_stack.getLast?.map
        (fun s => s.span_id)) = some sid) := by
    intro hc
    apply hne
    dsimp only [TracerState.updateSpanById] at hc
    rw [List.getLast?_map] at hc
    rcases hg : st'.span_stack.getLast? with _ | x
    · rw [hg] at hc
      exact absurd hc (by simp)
    · rw [hg] at hc
      dsimp only [Option.map] at hc ⊢
      rcases hc' : decide (x.span_id = sid) with _ | _
      · rw [if_neg (of_decide_eq_false hc')] at hc
        exact hc
      · rw [(of_decide_eq_true hc' : x.span_id = sid)]
    -- hc : some ((if x.span_id = sid then x.complete t none else x).span_id) = some sid
  rw [if_neg hcond]
  dsimp only [TracerState.updateSpanById]
  exact map_span_id_updIf _ _ _

theorem spanExitComplete_stack_top (st : TracerState) (sid : Nat) (t : ℚ)
    (l : List TraceSpan) (x : TraceSpan)
    (hst : st.span_stack = l ++ [x])
    (hl : sid ∉ l.map (fun s => s.span_id)) (hx : x.span_id = sid) :
    (st.spanExitComplete sid t).span_stack = l := by
  unfold TracerState.spanExitComplete TracerState.popIfTop
  have hu : (st.updateSpanById sid (fun s => s.complete t none)).span_stack =
      l ++ [x.complete t none] := by
    dsimp only [TracerState.updateSpanById]
    rw [hst, List.map_append, map_updIf_eq_self _ _ _ hl]
    simp only [List.map_cons, List.map_nil]
    rw [if_pos hx]
  rw [if_pos (show _ = some sid by
    rw [hu, List.getLast?_concat]
    dsimp only [Option.map]
    rw [complete_span_id, hx])]
  dsimp only
  rw [hu, List.dropLast_concat]

/-- C3: opening span A on an empty stack and span B nested inside it, then
closing B and A in order, gives `B.parent_id = A.span_id` and
`A.parent_id = none`; after B closes `get_current_span()` is the span with
A's id, after A closes it is `none`; and on any span exit whose span is not
the current top of `span_stack`, the pop is a defensive no-op (the stack's
ids are unchanged). -/
theorem c3_nested_spans (st : TracerState) (a b : Nat) (nA nB : String)
    (tyA tyB : SpanType) (ta tb t1 t2 : ℚ)
    (hab : a ≠ b) (hstack : st.span_stack = []) :
    (∃ sA, (st.spanEnter a nA tyA ta).get_current_span = some sA ∧
      sA.span_id = a ∧ sA.parent_id = none) ∧
    (∃ sB, ((st.spanEnter a nA tyA ta).spanEnter b nB tyB tb).get_current_span =
        some sB ∧ sB.span_id = b ∧ sB.parent_id = some a) ∧
    (∃ sA', (((st.spanEnter a nA tyA ta).spanEnter b nB tyB tb).spanExitComplete
        b t1).get_current_span = some sA' ∧ sA'.span_id = a) ∧
    ((((st.spanEnter a nA tyA ta).spanEnter b nB tyB tb).spanExitComplete
        b t1).spanExitComplete a t2).get_current_span = none ∧
    (∀ (st' : TracerState) (sid : Nat) (t : ℚ),
      st'.span_stack.getLast?.map (fun s => s.span_id) ≠ some sid →
      (st'.spanExitComplete sid t).span_stack.map (fun s => s.span_id) =
        st'.span_stack.map (fun s => s.span_id)) := by
  have e1 : (st.spanEnter a nA tyA ta).span_stack = [mkSpan st a nA tyA ta] := by
    rw [spanEnter_span_stack, hstack]
    rfl
  have hA_id : (mkSpan st a nA tyA ta).span_id = a := rfl
  have hA_par : (mkSpan st a nA tyA ta).parent_id = none := by
    unfold mkSpan
    rw [hstack]
    rfl
  have e2 : ((st.spanEnter a nA tyA ta).spanEnter b nB tyB tb).span_stack =
      [mkSpan st a nA tyA ta, mkSpan (st.spanEnter a nA tyA ta) b nB tyB tb] := by
    rw [spanEnter_span_stack, e1]
    rfl
  have hB_id : (mkSpan (st.spanEnter a nA tyA ta) b nB tyB tb).span_id = b := rfl
  have hB_par : (mkSpan (st.spanEnter a nA tyA ta) b nB tyB tb).parent_id =
      some a := by
    unfold mkSpan
    dsimp only
    rw [e1]
    rfl
  have e3 : (((st.spanEnter a nA tyA ta).spanEnter b nB tyB tb).spanExitComplete
      b t1).span_stack = [mkSpan st a nA tyA ta] :=
    spanExitComplete_stack_top _ b t1 [mkSpan st a nA tyA ta] _ e2
      (by
        simp only [List.map_cons, List.map_nil, List.mem_singleton, hA_id]
        exact Ne.symm hab)
      hB_id
  have e4 : ((((st.spanEnter a nA tyA ta).spanEnter b nB tyB tb).spanExitComplete
      b t1).spanExitComplete a t2).span_stack = [] :=
    spanExitComplete_stack_top _ a t2 [] _ e3 (by simp) hA_id
  refine ⟨⟨mkSpan st a nA tyA ta, ?_, hA_id, hA_par⟩,
    ⟨mkSpan (st.spanEnter a nA tyA ta) b nB tyB tb, ?_, hB_id, hB_par⟩,
    ⟨mkSpan st a nA tyA ta, ?_, hA_id⟩, ?_, spanExit_noop_ids⟩
  · unfold TracerState.get_current_span
    rw [e1]
    rfl
  · unfold TracerState.get_current_span
    rw [e2]
    rfl
  · unfold TracerState.get_current_span
    rw [e3]
    rfl
  · unfold TracerState.get_current_span
    rw [e4]
    rfl

/-- C3 witness: the nesting scenario evaluated on a concrete tracer with an
empty stack (ids 1 and 2), plus the defensive no-op evaluated on a concrete
stack whose top id (5) differs from the id being closed (9). -/
theorem c3_nested_spans_witness :
    (∃ sA, (c3St.spanEnter 1 "A" SpanType.agent_run 1).get_current_span =
        some sA ∧ sA.span_id = 1 ∧ sA.parent_id = none) ∧
    (∃ sB, ((c3St.spanEnter 1 "A" SpanType.agent_run 1).spanEnter 2 "B"
        SpanType.llm_call 2).get_current_span = some sB ∧
      sB.span_id = 2 ∧ sB.parent_id = some 1) ∧
    (∃ sA', (((c3St.spanEnter 1 "A" SpanType.agent_run 1).spanEnter 2 "B"
        SpanType.llm_call 2).spanExitComplete 2 3).get_current_span =
        some sA' ∧ sA'.span_id = 1) ∧
    ((((c3St.spanEnter 1 "A" SpanType.agent_run 1).spanEnter 2 "B"
        SpanType.llm_call 2).spanExitComplete 2 3).spanExitComplete
          1 4).get_current_span = none ∧
    (c3Guard.spanExitComplete 9 1).span_stack.map (fun s => s.span_id) =
      c3Guard.span_stack.map (fun s => s.span_id) :=
  have h := c3_nested_spans c3St 1 2 "A" "B" SpanType.agent_run
    SpanType.llm_call 1 2 3 4 (by decide) rfl
  ⟨h.1, h.2.1, h.2.2.1, h.2.2.2.1, h.2.2.2.2 c3Guard 9 1 (by decide)⟩

theorem complete_fields (s : TraceSpan) (now : ℚ)
    (outs : Option (List (String × String))) (h0 : s.start_time ≠ 0) :
    (s.complete now outs).status = "completed" ∧
    (s.complete now outs).end_time = some now ∧
    (s.complete now outs).duration_ms = some ((now - s.start_time) * 1000) := by
  unfold TraceSpan.complete
  dsimp only
  rw [if_pos h0]
  cases outs with
  | none => exact ⟨rfl, rfl, rfl⟩
  | some o =>
    dsimp only
    split <;> exact ⟨rfl, rfl, rfl⟩

theorem error_out_fields (s : TraceSpan) (now : ℚ) (e : PyException)
    (h0 : s.start_time ≠ 0) :
    (s.error_out now e).status = "error" ∧
    (s.error_out now e).end_time = some now ∧
    (s.error_out now e).duration_ms = some ((now - s.start_time) * 1000) := by
  unfold TraceSpan.error_out
  dsimp only
  rw [if_pos h0]
  exact ⟨rfl, rfl, rfl⟩

/-- C5 (amended): for a span created with the dataclass defaults
(`status = "running"`, `end_time = None`, `duration_ms = None`) and a
nonzero (truthy) `start_time`, the three conditions `status == "running"`,
`end_time is None`, `duration_ms is None` are pairwise equivalent both at
creation and after `complete()` or `error_out()`. -/
theorem c5_lifecycle_equiv (s : TraceSpan) (hst : s.status = "running")
    (he : s.end_time = none) (hd : s.duration_ms = none)
    (h0 : s.start_time ≠ 0) (now : ℚ)
    (outs : Option (List (String × String))) (e : PyException) :
    lifecycleEquiv s ∧ lifecycleEquiv (s.complete now outs) ∧
    lifecycleEquiv (s.error_out now e) := by
  obtain ⟨hc1, hc2, hc3⟩ := complete_fields s now outs h0
  obtain ⟨he1, he2, he3⟩ := error_out_fields s now e h0
  refine ⟨⟨iff_of_true hst he, iff_of_true he hd⟩, ?_, ?_⟩
  · constructor
    · rw [hc1, hc2]
      exact iff_of_false (by decide) (by simp)
    · rw [hc2, hc3]
      exact iff_of_false (by simp) (by simp)
  · constructor
    · rw [he1, he2]
      exact iff_of_false (by decide) (by simp)
    · rw [he2, he3]
      exact iff_of_false (by simp) (by simp)

/-- C5 witness: the lifecycle equivalence evaluated on a concrete fresh
span with `start_time = 1`, completed or errored at time 2. -/
theorem c5_lifecycle_equiv_witness :
    lifecycleEquiv c3TopSpan ∧ lifecycleEquiv (c3TopSpan.complete 2 none) ∧
    lifecycleEquiv (c3TopSpan.error_out 2 { ty := "ValueError", msg := "x" }) :=
  c5_lifecycle_equiv c3TopSpan rfl rfl rfl (by decide) 2 none
    { ty := "ValueError", msg := "x" }

/-- C5 (counterexample): a span created through the dataclass with the
default `status = "running"` but `start_time = 0.0` (falsy) and then
completed gets `status = "completed"` and `end_time` set while
`duration_ms` stays `None` — the three-way equivalence fails after close. -/
theorem c5_counterexample :
    c5ZeroStartSpan.status = "running" ∧
    c5ZeroStartSpan.end_time = none ∧
    c5ZeroStartSpan.duration_ms = none ∧
    (c5ZeroStartSpan.complete 5 none).status ≠ "running" ∧
    (c5ZeroStartSpan.complete 5 none).end_time = some 5 ∧
    (c5ZeroStartSpan.complete 5 none).duration_ms = none ∧
    ¬ lifecycleEquiv (c5ZeroStartSpan.complete 5 none) := by
  refine ⟨rfl, rfl, rfl, by decide, by decide, by decide, ?_⟩
  intro h
  exact absurd (h.2.mpr (by decide)) (by decide)

theorem map_congr_mem {α β : Type} (l : List α) (f g : α → β)
    (h : ∀ a ∈ l, f a = g a) : l.map f = l.map g := by
  induction l with
  | nil => rfl
  | cons x xs ih =>
    simp only [List.map_cons]
    rw [h x (List.mem_cons_self x xs), ih (fun a ha => h a (List.mem_cons_of_mem x ha))]

theorem publishFold_invoked (env : HandlerEnv) (e : Event) (l : List Nat)
    (acc : Subscribers × List Nat) :
    (l.foldl (fun acc h => (safeHandle env acc.1 h e, acc.2 ++ [h])) acc).2 =
      acc.2 ++ l := by
  induction l generalizing acc with
  | nil => simp
  | cons x xs ih =>
    rw [List.foldl_cons, ih]
    simp

theorem publishMemory_invoked (env : HandlerEnv) (tbl : Subscribers) (e : Event) :
    invokedList (publishMemory env tbl e) = subsOf tbl e.event_type := by
  unfold publishMemory subsOf invokedList
  cases hf : tbl.find? (fun p => p.1 = e.event_type) with
  | none => rfl
  | some entry =>
    dsimp only [Option.map, Option.getD]
    rw [publishFold_invoked]
    exact List.nil_append _

theorem publishMemory_ok (env : HandlerEnv) (tbl : Subscribers) (e : Event) :
    ∃ out, publishMemory env tbl e = .ok out := by
  unfold publishMemory
  cases hf : tbl.find? (fun p => p.1 = e.event_type) with
  | none => exact ⟨(tbl, []), rfl⟩
  | some entry => exact ⟨_, rfl⟩

/-- C4: in in-memory mode, `publish` always returns normally (`.ok`) for
every handler environment — including ones whose handlers raise — and
every handler subscribed to the event's type at publish time is invoked,
so one raising handler prevents neither the other handlers from running
nor `publish` from returning; with zero subscribers the same statement
gives a normal `.ok` return. -/
theorem c4_handler_errors_isolated (env : HandlerEnv) (tbl : Subscribers)
    (e : Event) :
    (∃ out, publishMemory env tbl e = .ok out) ∧
    (∀ h, h ∈ subsOf tbl e.event_type →
      h ∈ invokedList (publishMemory env tbl e)) := by
  refine ⟨publishMemory_ok env tbl e, ?_⟩
  intro h hh
  rw [publishMemory_invoked]
  exact hh

/-- C4 witness: on a concrete bus where handler 1 raises `"boom"`,
`publish` still returns `.ok` and handler 2 is still invoked; publish on a
bus with zero subscribers also returns `.ok`. -/
theorem c4_handler_errors_isolated_witness :
    (∃ out, publishMemory c4Env c4Bus c4Event = .ok out) ∧
    2 ∈ invokedList (publishMemory c4Env c4Bus c4Event) ∧
    (∃ out, publishMemory c4Env [] c4Event = .ok out) :=
  ⟨(c4_handler_errors_isolated c4Env c4Bus c4Event).1,
   (c4_handler_errors_isolated c4Env c4Bus c4Event).2 2 (by decide),
   (c4_handler_errors_isolated c4Env [] c4Event).1⟩

/-- C6: the fan-out set of a publish is the snapshot of the subscriber
table taken when `publish` starts: the invoked handlers are exactly the
ones subscribed for the event's type at that moment, for every handler
environment — in particular the list is identical under any two
environments, however they subscribe or unsubscribe mid-publish. -/
theorem c6_snapshot_fanout (env env' : HandlerEnv) (tbl : Subscribers)
    (e : Event) :
    invokedList (publishMemory env tbl e) = subsOf tbl e.event_type ∧
    invokedList (publishMemory env tbl e) =
      invokedList (publishMemory env' tbl e) := by
  refine ⟨publishMemory_invoked env tbl e, ?_⟩
  rw [publishMemory_invoked, publishMemory_invoked]

theorem setAdd_mem_self (l : List Nat) (h : Nat) : h ∈ setAdd l h := by
  unfold setAdd
  split
  · assumption
  · exact List.mem_append_right _ (List.mem_singleton.mpr rfl)

theorem setAdd_of_mem (l : List Nat) (h : Nat) (hm : h ∈ l) : setAdd l h = l := by
  unfold setAdd
  exact if_pos hm

theorem subG_fst (t : EventType) (h : Nat) (p : EventType × List Nat) :
    (if p.1 = t then (p.1, setAdd p.2 h) else p).1 = p.1 := by
  split <;> rfl

theorem subscribe_find?_comp (tbl : Subscribers) (t : EventType) (h : Nat) :
    (tbl.map (fun p => if p.1 = t then (p.1, setAdd p.2 h) else p)).find?
        (fun p => p.1 = t) =
      (tbl.find? (fun p => p.1 = t)).map
        (fun p => if p.1 = t then (p.1, setAdd p.2 h) else p) := by
  rw [List.find?_map]
  congr 2
  funext p
  simp only [Function.comp_apply]
  rw [subG_fst]

theorem subscribe_idem (tbl : Subscribers) (t : EventType) (h : Nat) :
    subscribe (subscribe tbl t h) t h = subscribe tbl t h := by
  by_cases hf : (tbl.find? (fun p => p.1 = t)).isSome
  · obtain ⟨entry, hentry⟩ := Option.isSome_iff_exists.mp hf
    have h1 : subscribe tbl t h =
        tbl.map (fun p => if p.1 = t then (p.1, setAdd p.2 h) else p) := by
      unfold subscribe
      rw [if_pos hf]
    have h2 : ((tbl.map (fun p => if p.1 = t then (p.1, setAdd p.2 h) else p)).find?
        (fun p => p.1 = t)).isSome := by
      rw [subscribe_find?_comp, hentry]
      rfl
    rw [h1]
    unfold subscribe
    rw [if_pos h2, List.map_map]
    apply map_congr_mem
    intro p _
    by_cases hpt : p.1 = t
    · simp only [Function.comp_apply]
      rw [if_pos hpt, if_pos (show ((p.1, setAdd p.2 h) :
          EventType × List Nat).1 = t from hpt)]
      rw [setAdd_of_mem _ _ (setAdd_mem_self _ _)]
    · simp only [Function.comp_apply]
      rw [if_neg hpt, if_neg hpt]
  · have hnone : tbl.find? (fun p => p.1 = t) = none :=
      Option.not_isSome_iff_eq_none.mp hf
    have hall : ∀ p ∈ tbl, ¬ (p.1 = t) := by
      intro p hp hpt
      exact (List.find?_eq_none.mp hnone p hp) (decide_eq_true hpt)
    have h1 : subscribe tbl t h = tbl ++ [(t, setAdd [] h)] := by
      unfold subscribe
      rw [if_neg hf]
    have h2 : (((tbl ++ [(t, setAdd [] h)]).find? (fun p => p.1 = t))).isSome := by
      rw [List.find?_append, hnone]
      rw [Option.none_or, List.find?_cons_of_pos _ (by simp)]
      rfl
    rw [h1]
    unfold subscribe
    rw [if_pos h2, List.map_append]
    congr 1
    · have : tbl.map (fun p => if p.1 = t then (p.1, setAdd p.2 h) else p) =
          tbl.map id :=
        map_congr_mem tbl _ id (fun p hp => by rw [if_neg (hall p hp)]; rfl)
      rw [this, List.map_id]
    · simp only [List.map_cons, List.map_nil]
      rw [if_pos trivial, setAdd_of_mem _ _ (setAdd_mem_self _ _)]

theorem not_mem_subsOf_unsubscribe (tbl : Subscribers) (t : EventType)
    (h : Nat) : h ∉ subsOf (unsubscribe tbl t h) t := by
  induction tbl with
  | nil => simp [unsubscribe, subsOf]
  | cons x xs ih =>
    unfold unsubscribe subsOf
    by_cases hx : x.1 = t
    · simp only [List.map_cons, if_pos hx]
      rw [List.find?_cons_of_pos _ (by simp [hx])]
      dsimp only [Option.map, Option.getD]
      intro hmem
      have := List.of_mem_filter hmem
      simp at this
    · simp only [List.map_cons, if_neg hx]
      rw [List.find?_cons_of_neg _ (by simp [hx])]
      exact ih

/-- C7: `subscribe` is idempotent — subscribing the same handler to the
same event type twice leaves the subscriber table exactly as one subscribe
does (set semantics, the handler is stored once) — and a single subsequent
`unsubscribe` removes the handler entirely from that type's subscriber
set. -/
theorem c7_subscribe_idempotent (tbl : Subscribers) (t : EventType) (h : Nat) :
    subscribe (subscribe tbl t h) t h = subscribe tbl t h ∧
    h ∉ subsOf (unsubscribe (subscribe tbl t h) t h) t :=
  ⟨subscribe_idem tbl t h, not_mem_subsOf_unsubscribe _ t h⟩

theorem startsWithChars_refl (l : List Char) : startsWithChars l l = true := by
  induction l with
  | nil => rfl
  | cons x xs ih => simp [startsWithChars, ih]

theorem containsChars_refl (l : List Char) : containsChars l l = true := by
  cases l with
  | nil => rfl
  | cons x xs => simp [containsChars, startsWithChars_refl]

/-- C8: `calculate_llm_cost("gpt-4o-mini", 1_000_000, 1_000_000)` is exactly
`0.15 + 0.60 = 0.75` USD, and any model name that (after `lower().strip()`
normalization) matches no pricing-table key exactly nor by substring in
either direction yields `0.0` for all token counts, never an error. -/
theorem c8_cost_lookup :
    calculate_llm_cost "gpt-4o-mini" 1000000 1000000 = 0.75 ∧
    (∀ (model : String) (i o : ℤ),
      (∀ p ∈ LLM_PRICING,
        containsChars p.1.data (normalizeModel model) = false ∧
        containsChars (normalizeModel model) p.1.data = false) →
      calculate_llm_cost model i o = 0) := by
  constructor
  · unfold calculate_llm_cost
    rw [if_neg (by decide)]
    simp only [show LLM_PRICING.find?
        (fun p => p.1.data = normalizeModel "gpt-4o-mini") =
        some ("gpt-4o-mini", 0.15, 0.60) from rfl]
    norm_num
  · intro model i o hno
    unfold calculate_llm_cost
    by_cases h0 : model = "" ∨ i = 0 ∨ o = 0
    · rw [if_pos h0]
    · rw [if_neg h0]
      have hexact : LLM_PRICING.find?
          (fun p => p.1.data = normalizeModel model) = none := by
        apply List.find?_eq_none.mpr
        intro p hp hdec
        have heq : p.1.data = normalizeModel model := of_decide_eq_true hdec
        have h1 := (hno p hp).1
        rw [heq, containsChars_refl] at h1
        exact Bool.true_eq_false.mp h1
      have hfuzzy : LLM_PRICING.find?
          (fun p => containsChars p.1.data (normalizeModel model) ||
            containsChars (normalizeModel model) p.1.data) = none := by
        apply List.find?_eq_none.mpr
        intro p hp hdec
        obtain ⟨h1, h2⟩ := hno p hp
        rw [h1, h2] at hdec
        simp at hdec
      simp only [hexact, hfuzzy]

/-- C8 witness: the exact-match case evaluated at `"gpt-4o-mini"`, and the
no-match case evaluated at the concrete model name
`"my-custom-model-9000"` with nonzero token counts. -/
theorem c8_cost_lookup_witness :
    calculate_llm_cost "gpt-4o-mini" 1000000 1000000 = 0.75 ∧
    calculate_llm_cost "my-custom-model-9000" 5 7 = 0 :=
  ⟨c8_cost_lookup.1, c8_cost_lookup.2 "my-custom-model-9000" 5 7 (by decide)⟩

/-- C9: `calculate_llm_cost` returns `0.0` whenever either token count is
zero — the early guard `input_tokens == 0 or output_tokens == 0` fires
before any pricing lookup, even for a priced model with a nonzero count on
the other side. -/
theorem c9_zero_tokens_zero_cost (model : String) (i o : ℤ)
    (h : i = 0 ∨ o = 0) :
    calculate_llm_cost model i o = 0 := by
  unfold calculate_llm_cost
  rw [if_pos (Or.inr h)]

/-- C9 witness: zero input tokens with a million output tokens of the
priced model `"gpt-4o-mini"` still cost `0.0`, not the output price. -/
theorem c9_zero_tokens_zero_cost_witness :
    calculate_llm_cost "gpt-4o-mini" 0 1000000 = 0 :=
  c9_zero_tokens_zero_cost "gpt-4o-mini" 0 1000000 (Or.inl rfl)

/-- C10: `to_dict` serializes `final_output` as `None` exactly when the
value is falsy (`None`, `0`, `""`, `False`) and as `str(final_output)`
otherwise; consequently a trace whose `final_output` is a falsy non-`None`
value serializes identically to one whose `final_output` is `None`. -/
theorem c10_final_output_serialization (t : ExecutionTrace) (now : ℚ) :
    ((t.to_dict now).final_output =
      if t.final_output.truthy then some t.final_output.str else none) ∧
    ExecutionTrace.to_dict { t with final_output := PyVal.pyint 0 } now =
      ExecutionTrace.to_dict { t with final_output := PyVal.pynone } now ∧
    ExecutionTrace.to_dict { t with final_output := PyVal.pystr "" } now =
      ExecutionTrace.to_dict { t with final_output := PyVal.pynone } now ∧
    ExecutionTrace.to_dict { t with final_output := PyVal.pybool false } now =
      ExecutionTrace.to_dict { t with final_output := PyVal.pynone } now :=
  ⟨rfl, rfl, rfl, rfl⟩
